import Mathlib

set_option linter.unusedVariables false

/-! Shallow embedding of beeswarm/drones/drone.py: the Drone class, the
    agent lifecycle and messaging core of the beeswarm sensor system.
    Python strings are modeled as lists of characters and the string
    operations the source uses (split with a maxsplit bound, substring
    membership, truthiness) are reimplemented faithfully. Side effects
    are recorded as explicit event traces. -/

/-- Python strings, modeled as lists of characters. -/
abbrev PyStr := List Char

/-- Splits a string at its first space: models one step of the Python
    str.split method with a space separator and a maxsplit bound.
    Returns none when the string contains no space. -/
def splitFirst : PyStr → Option (PyStr × PyStr)
  | [] => none
  | c :: rest =>
    if c = ' ' then some ([], rest)
    else
      match splitFirst rest with
      | some (a, b) => some (c :: a, b)
      | none => none

/-- Models the unpacking on drone.py line 190, where the received
    message is split with maxsplit two and unpacked into drone_id,
    command and data. Returns none when the message has fewer than
    three space separated parts, in which case Python raises
    ValueError from the tuple unpacking. -/
def pySplit2 (s : PyStr) : Option (PyStr × PyStr × PyStr) :=
  match splitFirst s with
  | none => none
  | some (a, rest) =>
    match splitFirst rest with
    | none => none
    | some (b, c) => some (a, b, c)

/-- Models the Python substring containment test used on drone.py
    line 272. -/
def pyIn (needle : PyStr) : PyStr → Bool
  | [] => needle.isPrefixOf []
  | c :: rest => needle.isPrefixOf (c :: rest) || pyIn needle rest

/-- Models Python truthiness of a string: nonempty strings are truthy. -/
def pyTruthy (s : PyStr) : Bool := !s.isEmpty

/-- Modelled from the spec: the CONFIG command string value of the
    shared Messages enum; beeswarm.shared.message_enum is not among
    the embedded sources, and the spec wire table lists CONFIG and
    DELETE as the inbound commands and PING, IP and WANT_CONFIG as the
    outbound topics. -/
def CONFIG_CMD : PyStr := "CONFIG".toList

/-- Modelled from the spec: the DRONE_DELETE command string value of
    the shared Messages enum. -/
def DELETE_CMD : PyStr := "DELETE".toList

/-- Modelled from the spec: the PING topic string value of the shared
    Messages enum. -/
def PING_TOPIC : PyStr := "PING".toList

/-- Modelled from the spec: the IP topic string value of the shared
    Messages enum. -/
def IP_TOPIC : PyStr := "IP".toList

/-- Modelled from the spec: the DRONE_WANT_CONFIG topic string value
    of the shared Messages enum. -/
def WANT_CONFIG_TOPIC : PyStr := "WANT_CONFIG".toList

/-- The literal substring tested against the monitor log name on
    drone.py line 272. -/
def outgoingTok : PyStr := "outgoing".toList

/-- The constant string literal standing as the condition on drone.py
    line 276. -/
def incommingTok : PyStr := "incomming".toList

/-- Token of the document codec standing for a null mode value. -/
def noneTok : PyStr := "None".toList

/-- The honeypot mode literal compared on drone.py line 117. -/
def honeypotMode : PyStr := "honeypot".toList

/-- The client mode literal compared on drone.py line 119. -/
def clientMode : PyStr := "client".toList

/-- The configuration document. The embedded methods inspect only the
    mode field under the general section; the rest of the document is
    carried opaquely and compared by structural equality, as on
    drone.py line 197. -/
structure Config where
  mode : Option PyStr
  doc : PyStr
  deriving DecidableEq

/-- Models json.loads with the asciify object hook (drone.py line 196)
    as an abstract structural decoder: the first space separated token
    encodes the mode field (the token None standing for a null mode)
    and the remainder is the rest of the document. The concrete JSON
    syntax is external library behavior; only the decoded structure is
    relevant to the agent. Returns none when decoding fails, in which
    case Python raises ValueError. -/
def loads (s : PyStr) : Option Config :=
  match splitFirst s with
  | none => none
  | some (m, d) => some ⟨if m = noneTok then none else some m, d⟩

/-- Models json.dumps of the configuration document (drone.py
    line 201) at the level of detail the persistence analysis needs:
    an encoding of the document that is never the empty string, as a
    JSON object serialization never is. -/
def dumps (c : Config) : PyStr :=
  (match c.mode with | none => noneTok | some m => m) ++ (' ' :: c.doc)

/-- The mutable state of the Drone object that the embedded methods
    touch: the own identity, the in-memory configuration, the
    structural content of the persisted configuration file, the
    running workload tagged with the configuration it was constructed
    with, and the config_received latch. -/
structure DroneState where
  id : PyStr
  config : Config
  configFile : Option Config
  droneRunning : Option Config
  configReceived : Bool
  deriving DecidableEq

/-- Observable side effects of the embedded methods, in program order:
    relayPush is a send_zmq_push onto the SERVER_RELAY queue, persist
    is the write of the configuration document to the local file,
    stopWorkload and startWorkload are the workload lifecycle steps,
    latchSet is setting the config_received latch, internalRelay is
    the pass-through send to internal listeners, outgoingRelayIn is a
    forward onto the Outbound Relay input queue, and exitProcess is a
    sys.exit call with the given status. -/
inductive Event where
  | relayPush (msg : PyStr)
  | persist (c : Config)
  | stopWorkload
  | startWorkload (c : Config)
  | latchSet
  | internalRelay (msg : PyStr)
  | outgoingRelayIn (msg : PyStr)
  | exitProcess (code : Nat)
  deriving DecidableEq

/-- Python exceptions raised by the embedded code paths. -/
inductive PyError where
  | valueError
  | assertionError
  | ioError
  deriving DecidableEq

/-- Result of one step of a message handling loop: normal
    continuation, an uncaught exception carrying the state at the
    raise point (the linked on_exception handler then runs), or
    process exit with a status code. -/
inductive StepResult where
  | ok (st : DroneState) (events : List Event)
  | fatal (st : DroneState) (events : List Event) (err : PyError)
  | exited (st : DroneState) (events : List Event) (code : Nat)
  deriving DecidableEq

/-- Prefixes already performed events onto the events of a result. -/
def prependEvents (evs : List Event) : StepResult → StepResult
  | .ok st es => .ok st (evs ++ es)
  | .fatal st es e => .fatal st (evs ++ es) e
  | .exited st es n => .exited st (evs ++ es) n

/-- The event trace of a step result. -/
def eventsOf : StepResult → List Event
  | .ok _ evs => evs
  | .fatal _ evs _ => evs
  | .exited _ evs _ => evs

/-- Models Drone.stop (drone.py lines 128..139): when a workload is
    running it is stopped and the reference cleared; the greenlet
    bookkeeping and the grace sleep have no further observable effect
    in this state model. -/
def droneStop (st : DroneState) : DroneState × List Event :=
  match st.droneRunning with
  | some _ => ({ st with droneRunning := none }, [Event.stopWorkload])
  | none => (st, [])

/-- Models Drone._start_drone (drone.py lines 106..126): re-reads the
    persisted configuration into memory, then dispatches on the mode
    field: honeypot and client spawn a workload constructed with the
    loaded configuration, while an empty, null or unrecognized mode
    spawns nothing and the agent keeps awaiting configuration. A
    missing file makes the open call raise. -/
def startDrone (st : DroneState) : StepResult :=
  match st.configFile with
  | none => .fatal st [] PyError.ioError
  | some c =>
    let st1 : DroneState := { st with config := c }
    if c.mode = some honeypotMode ∨ c.mode = some clientMode then
      .ok { st1 with droneRunning := some c } [Event.startWorkload c]
    else
      .ok st1 []

/-- Models drone.py lines 198..204, the reconciliation arm of the
    CONFIG handler: assign the new configuration in memory, write it
    to the local file, stop the old workload, restart via
    _start_drone, then set the config_received latch. -/
def reconcileConfig (st : DroneState) (c : Config) : StepResult :=
  let st1 : DroneState := { st with config := c }
  let st2 : DroneState := { st1 with configFile := some c }
  let sp := droneStop st2
  prependEvents (Event.persist c :: sp.2)
    (match startDrone sp.1 with
     | .ok st4 evs => .ok { st4 with configReceived := true } (evs ++ [Event.latchSet])
     | r => r)

/-- Models Drone._handle_delete (drone.py lines 284..288): stop the
    workload when one is running, then call sys.exit with status zero.
    The drone reference is not cleared before the exit call, matching
    the source. -/
def handleDelete (st : DroneState) : StepResult :=
  match st.droneRunning with
  | some _ => .exited st [Event.stopWorkload, Event.exitProcess 0] 0
  | none => .exited st [Event.exitProcess 0] 0

/-- Models the server socket arm of Drone.incoming_server_comms
    (drone.py lines 185..208) for one received message: split into
    identity, command and payload (ValueError when impossible), check
    the identity against the own id (AssertionError on mismatch), then
    dispatch. The CONFIG command first pushes a PING acknowledgment,
    then parses the payload and reconciles unless the document equals
    the in-memory configuration with the latch already set; the DELETE
    command self-destructs; any other command is passed through to
    internal listeners with the command as first token. -/
def incomingServerMessage (st : DroneState) (msg : PyStr) : StepResult :=
  match pySplit2 msg with
  | none => .fatal st [] PyError.valueError
  | some (droneId, command, data) =>
    if droneId = st.id then
      if command = CONFIG_CMD then
        prependEvents [Event.relayPush PING_TOPIC]
          (match loads data with
           | none => .fatal st [] PyError.valueError
           | some c =>
             if st.config ≠ c ∨ st.configReceived = false then
               reconcileConfig st c
             else
               .ok st [])
      else if command = DELETE_CMD then
        handleDelete st
      else
        .ok st [Event.internalRelay (command ++ (' ' :: data))]
    else
      .fatal st [] PyError.assertionError

/-- Models Drone.on_exception (drone.py lines 141..144), the linked
    handler that runs when a message handling greenlet raises: it
    calls Drone.stop and exits the process with status one. -/
def onException (st : DroneState) : DroneState × List Event :=
  let sp := droneStop st
  (sp.1, sp.2 ++ [Event.exitProcess 1])

/-- One server message step together with the exception linkage
    installed in Drone.start (drone.py lines 96..101): an uncaught
    exception in the handling greenlet triggers on_exception. -/
def incomingStepLinked (st : DroneState) (msg : PyStr) : StepResult :=
  match incomingServerMessage st msg with
  | .fatal stf evs _ =>
    let sp := onException stf
    .exited sp.1 (evs ++ sp.2) 1
  | r => r

/-- Models the body of the local pull socket arm of
    Drone.incoming_server_comms (drone.py lines 209..211): a message
    dequeued from the local socket would be forwarded to the Outbound
    Relay input queue with the own identity prepended as the first
    token. This arm is reachable only when the poller reports the
    local socket readable, which never happens: see registeredSockets
    and commsLoopIteration below. -/
def localQueueStep (st : DroneState) (data : PyStr) : StepResult :=
  .ok st [Event.outgoingRelayIn (st.id ++ (' ' :: data))]

/-- The two receiving sockets of Drone.incoming_server_comms: the
    subscribe socket connected to the coordinator (drone.py
    lines 150..158) and the local pull socket (lines 161..163). -/
inductive CommSocket where
  | serverReceiving
  | localReceiving
  deriving DecidableEq

/-- The sockets registered with the poller of
    Drone.incoming_server_comms (drone.py lines 176..177): only the
    server receiving socket is registered. The local receiving socket
    is created and bound on lines 161..163 but never registered. -/
def registeredSockets : List CommSocket := [CommSocket.serverReceiving]

/-- Models poller.poll on drone.py line 181: the sockets reported
    readable are the sockets that have pending input and are
    registered with the poller. -/
def pollSockets (pending : List CommSocket) : List CommSocket :=
  pending.filter (fun s => registeredSockets.contains s)

/-- Models one iteration of the receive loop of
    Drone.incoming_server_comms (drone.py lines 179..211): the if arm
    handles a server message when the poller reported the server
    socket readable, the elif arm forwards a local message when the
    poller reported the local socket readable, and otherwise the
    iteration does nothing. serverMsg and localMsg are the messages
    pending on the respective sockets. -/
def commsLoopIteration (st : DroneState) (pending : List CommSocket)
    (serverMsg localMsg : PyStr) : StepResult :=
  let socks := pollSockets pending
  if CommSocket.serverReceiving ∈ socks then
    incomingServerMessage st serverMsg
  else if CommSocket.localReceiving ∈ socks then
    localQueueStep st localMsg
  else
    .ok st []

/-- Models the identity stamping of Drone.outgoing_server_comms
    (drone.py lines 242..254): split the dequeued message at the first
    space; with a lone topic the wire form is the topic followed by
    the own identity, with a payload the identity is injected between
    topic and payload. -/
def relayTransform (agentId msg : PyStr) : PyStr :=
  match splitFirst msg with
  | none => msg ++ (' ' :: agentId)
  | some (topic, data) => topic ++ (' ' :: (agentId ++ (' ' :: data)))

/-- Models the EVENT_CONNECTED arm of Drone.monitor_worker (drone.py
    lines 268..279): always push WANT_CONFIG first; when the log name
    contains the outgoing token additionally push PING and then an IP
    message carrying the best guess address obtained from
    get_most_likely_ip, which is passed in as ownIp; the following arm
    guarded by the truthiness of the constant incomming literal
    swallows every other name; none models reaching the final arm that
    asserts False. -/
def monitorConnect (logName ownIp : PyStr) : Option (List PyStr) :=
  if pyIn outgoingTok logName then
    some [WANT_CONFIG_TOPIC, PING_TOPIC, IP_TOPIC ++ (' ' :: ownIp)]
  else if pyTruthy incommingTok then
    some [WANT_CONFIG_TOPIC]
  else
    none

/-- Outcome of the external ip fetch in Drone.__init__. -/
inductive FetchOutcome where
  | success (text : PyStr)
  | timeoutErr
  | connectionErr
  deriving DecidableEq

/-- Models the ip attribute initialization in Drone.__init__ (drone.py
    lines 72..81): with fetch_ip enabled the fetched text is stored on
    success, while a Timeout or ConnectionError is caught, logged and
    leaves the attribute unassigned, modeled as none; with fetch_ip
    disabled the attribute is the empty string. -/
def droneInitIp (fetchIp : Bool) (r : FetchOutcome) : Option PyStr :=
  if fetchIp then
    match r with
    | .success t => some t
    | .timeoutErr => none
    | .connectionErr => none
  else
    some []

/-- Operations on the configuration file seen as a byte string:
    truncate and write model the open in write mode plus the single
    write call of drone.py lines 200..201; renameReplace models an
    atomic replacement of the file content in one step. -/
inductive FileOp where
  | truncate
  | write (s : PyStr)
  | renameReplace (s : PyStr)
  deriving DecidableEq

/-- Effect of one file operation on the current file content. -/
def applyOp (cur : PyStr) : FileOp → PyStr
  | .truncate => []
  | .write s => cur ++ s
  | .renameReplace s => s

/-- The file operations performed by the persistence step of drone.py
    lines 200..201: opening the file in write mode truncates it, then
    one write appends the serialized document. No temporary file and
    no rename are involved. -/
def persistOps (contents : PyStr) : List FileOp :=
  [FileOp.truncate, FileOp.write contents]

/-- Modelled from the spec: overwrite by write-then-rename, the atomic
    mechanism the spec prescribes, in which the configuration file
    itself changes in a single rename step. -/
def writeThenRenameOps (contents : PyStr) : List FileOp :=
  [FileOp.renameReplace contents]

/-- Every content a concurrent reader of the file can observe: the
    initial content and the content after each operation. -/
def observedStates (init : PyStr) : List FileOp → List PyStr
  | [] => [init]
  | op :: rest => init :: observedStates (applyOp init op) rest

/-- A reader never observes an incomplete document: every observable
    content is the old document or the new one. -/
def readerSafe (init : PyStr) (ops : List FileOp) (final : PyStr) : Bool :=
  (observedStates init ops).all (fun s => s == init || s == final)

/-- A concrete honeypot configuration used in concrete instances. -/
def exConfig : Config := ⟨some honeypotMode, "d".toList⟩

/-- A concrete client configuration used in concrete instances. -/
def exConfigB : Config := ⟨some clientMode, "e".toList⟩

/-- A concrete agent state: identity A1, honeypot configuration
    applied, persisted and running, latch set. -/
def exStateA : DroneState := ⟨"A1".toList, exConfig, some exConfig, some exConfig, true⟩

/-- The state exStateA after its workload has been stopped. -/
def exStateAStopped : DroneState := ⟨"A1".toList, exConfig, some exConfig, none, true⟩

/-- A concrete monitor log name of the outgoing transport. -/
def exOutName : PyStr := "outgoing socket (tcp).".toList

/-- A concrete monitor log name of the incoming transport. -/
def exIncName : PyStr := "incomming socket (tcp).".toList

theorem splitFirst_no_space (s : PyStr) (h : ' ' ∉ s) : splitFirst s = none := by
  induction s with
  | nil => rfl
  | cons c rest ih =>
    rw [List.mem_cons, not_or] at h
    have hc : ¬ c = ' ' := fun hce => h.1 hce.symm
    simp [splitFirst, hc, ih h.2]

theorem splitFirst_append (t p : PyStr) (h : ' ' ∉ t) :
    splitFirst (t ++ (' ' :: p)) = some (t, p) := by
  induction t with
  | nil => simp [splitFirst]
  | cons c rest ih =>
    rw [List.mem_cons, not_or] at h
    have hc : ¬ c = ' ' := fun hce => h.1 hce.symm
    simp [splitFirst, hc, ih h.2]

theorem pySplit2_eq (i c d : PyStr) (hi : ' ' ∉ i) (hc : ' ' ∉ c) :
    pySplit2 (i ++ (' ' :: (c ++ (' ' :: d)))) = some (i, c, d) := by
  simp [pySplit2, splitFirst_append i (c ++ (' ' :: d)) hi, splitFirst_append c d hc]

/-- C1 counterexample: after the latch is set, a CONFIG command whose
    payload is structurally identical to the in-memory configuration
    still triggers an outbound PING push from the CONFIG handling arm
    (drone.py line 195 runs before the equality check on line 197), so
    the processing is not a complete no-op as claimed. -/
theorem c1_counterexample :
    exStateA.configReceived = true ∧
    loads ("honeypot d".toList) = some exStateA.config ∧
    Event.relayPush PING_TOPIC ∈
      eventsOf (incomingServerMessage exStateA ("A1 CONFIG honeypot d".toList)) := by
  decide

/-- C1 (amended): after the latch is set, a CONFIG command whose
    payload is structurally identical to the in-memory configuration
    leaves the state completely unchanged, writes nothing to the local
    configuration file and neither stops nor starts the workload; the
    sole effect is the PING acknowledgment that the CONFIG handling
    arm emits unconditionally. -/
theorem c1_config_idempotent_after_latch (st : DroneState) (data : PyStr)
    (hid : ' ' ∉ st.id) (hl : loads data = some st.config)
    (hlatch : st.configReceived = true) :
    incomingServerMessage st (st.id ++ (' ' :: (CONFIG_CMD ++ (' ' :: data)))) =
      .ok st [Event.relayPush PING_TOPIC] := by
  have hsplit := pySplit2_eq st.id CONFIG_CMD data hid (by decide)
  simp [incomingServerMessage, hsplit, hl, hlatch, prependEvents]

/-- C1 witness: the amended theorem applied at a concrete state and
    payload. -/
theorem c1_witness :
    incomingServerMessage exStateA
        (exStateA.id ++ (' ' :: (CONFIG_CMD ++ (' ' :: ("honeypot d".toList))))) =
      .ok exStateA [Event.relayPush PING_TOPIC] :=
  c1_config_idempotent_after_latch exStateA ("honeypot d".toList)
    (by decide) (by decide) (by decide)

/-- C2 counterexample: a message whose leading identity token differs
    from the own identity raises an AssertionError (drone.py
    line 192); the linked on_exception handler (lines 141..144) then
    stops the running workload and exits the process with status one,
    so processing does not continue and the running workload is
    affected, contrary to the claim. -/
theorem c2_counterexample :
    exStateA.droneRunning = some exConfig ∧
    incomingStepLinked exStateA ("B9 CONFIG honeypot d".toList) =
      .exited exStateAStopped [Event.stopWorkload, Event.exitProcess 1] 1 := by
  decide

/-- C2 (amended): for a message that is malformed (fewer than three
    space separated parts) or whose leading identity token differs
    from the own identity, the configuration, the persisted file and
    the latch are not mutated and nothing is pushed outbound or
    forwarded, but processing does not continue: the exception
    escalates through on_exception, the running workload is stopped
    and the process exits with failure status one. -/
theorem c2_protocol_violation_teardown (st : DroneState) (msg : PyStr)
    (h : pySplit2 msg = none ∨
      ∃ d c a : PyStr, pySplit2 msg = some (d, c, a) ∧ d ≠ st.id) :
    incomingStepLinked st msg =
      .exited { st with droneRunning := none }
        ((if st.droneRunning.isSome then [Event.stopWorkload] else []) ++
          [Event.exitProcess 1]) 1 := by
  obtain ⟨i, cfg, cf, dr, cr⟩ := st
  rcases h with hnone | ⟨d, c, a, hsplit, hne⟩
  · cases dr <;>
      simp [incomingStepLinked, incomingServerMessage, hnone, onException, droneStop]
  · simp only [DroneState.id] at hne
    cases dr <;>
      simp [incomingStepLinked, incomingServerMessage, hsplit, hne, onException, droneStop]

/-- C2 witness: the amended theorem applied at a concrete running
    state and a concrete message with a foreign identity token. -/
theorem c2_witness :
    incomingStepLinked exStateA ("B9 STATUS x".toList) =
      .exited { exStateA with droneRunning := none }
        ((if exStateA.droneRunning.isSome then [Event.stopWorkload] else []) ++
          [Event.exitProcess 1]) 1 :=
  c2_protocol_violation_teardown exStateA ("B9 STATUS x".toList)
    (Or.inr ⟨"B9".toList, "STATUS".toList, "x".toList, by decide, by decide⟩)

/-- C3: a CONFIG command carrying a document that differs from the
    in-memory configuration, received while a workload is running and
    with a recognized mode in the new document, produces exactly the
    trace PING acknowledgment, persist, stop old workload, start new
    workload, latch set, in that order; afterwards the persisted
    document, the in-memory configuration and the configuration the
    new workload was constructed with are all equal to the new
    document. -/
theorem c3_reconcile_write_then_apply (st : DroneState) (data : PyStr) (c : Config)
    (hid : ' ' ∉ st.id) (hl : loads data = some c) (hnew : st.config ≠ c)
    (hrun : st.droneRunning.isSome = true)
    (hmode : c.mode = some honeypotMode ∨ c.mode = some clientMode) :
    incomingServerMessage st (st.id ++ (' ' :: (CONFIG_CMD ++ (' ' :: data)))) =
      .ok { st with config := c, configFile := some c, droneRunning := some c,
                    configReceived := true }
        [Event.relayPush PING_TOPIC, Event.persist c, Event.stopWorkload,
         Event.startWorkload c, Event.latchSet] := by
  have hsplit := pySplit2_eq st.id CONFIG_CMD data hid (by decide)
  obtain ⟨c0, hc0⟩ := Option.isSome_iff_exists.mp hrun
  have hcond : st.config ≠ c ∨ st.configReceived = false := Or.inl hnew
  rcases hmode with hm | hm <;>
    simp [incomingServerMessage, hsplit, hl, hcond, reconcileConfig, droneStop, hc0,
      startDrone, prependEvents, hm]

/-- C3 witness: the reconciliation theorem applied at a concrete
    running state and a concrete new client document. -/
theorem c3_witness :
    incomingServerMessage exStateA
        (exStateA.id ++ (' ' :: (CONFIG_CMD ++ (' ' :: ("client e".toList))))) =
      .ok { exStateA with config := exConfigB, configFile := some exConfigB,
                          droneRunning := some exConfigB, configReceived := true }
        [Event.relayPush PING_TOPIC, Event.persist exConfigB, Event.stopWorkload,
         Event.startWorkload exConfigB, Event.latchSet] :=
  c3_reconcile_write_then_apply exStateA ("client e".toList) exConfigB
    (by decide) (by decide) (by decide) (by decide) (by decide)

/-- C4: identity stamping in the Outbound Relay. For a dequeued
    message that is a lone space-free topic, the wire form is the
    topic followed by the agent identity; for a message of topic and
    payload, the identity is injected between them and the payload,
    which may itself contain spaces, is preserved verbatim. -/
theorem c4_relay_identity_stamp (agentId topic p : PyStr) (h : ' ' ∉ topic) :
    relayTransform agentId topic = topic ++ (' ' :: agentId) ∧
    relayTransform agentId (topic ++ (' ' :: p)) =
      topic ++ (' ' :: (agentId ++ (' ' :: p))) := by
  constructor
  · simp [relayTransform, splitFirst_no_space topic h]
  · simp [relayTransform, splitFirst_append topic p h]

/-- C4 witness: the stamping theorem applied at a concrete topic and a
    payload containing a space. -/
theorem c4_witness :
    relayTransform ("A1".toList) ("EVT".toList) = ("EVT".toList) ++ (' ' :: ("A1".toList)) ∧
    relayTransform ("A1".toList) (("EVT".toList) ++ (' ' :: ("a b".toList))) =
      ("EVT".toList) ++ (' ' :: (("A1".toList) ++ (' ' :: ("a b".toList)))) :=
  c4_relay_identity_stamp ("A1".toList) ("EVT".toList) ("a b".toList) (by decide)

/-- C5: evaluation of the receive loop at the failing input. The
    poller of incoming_server_comms registers only the server
    receiving socket (drone.py lines 176..177), so the poll result
    never contains the local receiving socket, no matter which
    sockets have pending input; in particular, an iteration in which
    a message is pending on the local socket alone dispatches to
    neither arm and produces no forward: the message is never
    forwarded to the Outbound Relay input queue, contrary to the
    claim. -/
theorem c5_local_socket_dead (st : DroneState) (pending : List CommSocket)
    (serverMsg localMsg : PyStr) :
    CommSocket.localReceiving ∉ pollSockets pending ∧
    commsLoopIteration st [CommSocket.localReceiving] serverMsg localMsg =
      .ok st [] := by
  constructor
  · intro hmem
    rw [pollSockets, List.mem_filter] at hmem
    exact absurd hmem.2 (by decide)
  · rfl

/-- C6: evaluation of the init code at the failing input. With
    fetch_ip enabled and the external fetch raising Timeout or
    ConnectionError, the exception is caught but the ip attribute is
    never assigned, modeled as none: only the branch with fetch_ip
    disabled assigns the empty string. The claim (and the spec) say
    the agent continues with the attribute set to the empty string, so
    the code diverges from the stated intent. -/
theorem c6_fetch_ip_failure_unset :
    droneInitIp true FetchOutcome.timeoutErr = none ∧
    droneInitIp true FetchOutcome.connectionErr = none ∧
    droneInitIp false FetchOutcome.timeoutErr = some [] := by
  decide

/-- C7: on a DELETE command addressed to this agent, with a workload
    running the trace is stop workload then exit, and the process
    exits with success status zero; with no workload running the
    process simply exits with status zero. -/
theorem c7_delete_stop_then_exit (st : DroneState) (msg data : PyStr)
    (hsplit : pySplit2 msg = some (st.id, DELETE_CMD, data)) :
    incomingServerMessage st msg =
      .exited st
        ((if st.droneRunning.isSome then [Event.stopWorkload] else []) ++
          [Event.exitProcess 0]) 0 := by
  obtain ⟨i, cfg, cf, dr, cr⟩ := st
  cases dr <;>
    simp [incomingServerMessage, hsplit, handleDelete,
      show ¬ DELETE_CMD = CONFIG_CMD from by decide]

/-- C7 witness: the DELETE theorem applied at a concrete running state
    and message. -/
theorem c7_witness :
    incomingServerMessage exStateA ("A1 DELETE x".toList) =
      .exited exStateA
        ((if exStateA.droneRunning.isSome then [Event.stopWorkload] else []) ++
          [Event.exitProcess 0]) 0 :=
  c7_delete_stop_then_exit exStateA ("A1 DELETE x".toList) ("x".toList) (by decide)

/-- C8: a connect event on the monitor whose log name contains the
    outgoing token pushes exactly three announcements onto the relay
    queue, WANT_CONFIG then PING then IP with the best guess address,
    and the Outbound Relay stamping turns them into exactly the wire
    forms WANT_CONFIG id, PING id and IP id address, in that order. -/
theorem c8_outgoing_reconnect_announcements (logName ownIp agentId : PyStr)
    (h : pyIn outgoingTok logName = true) :
    monitorConnect logName ownIp =
      some [WANT_CONFIG_TOPIC, PING_TOPIC, IP_TOPIC ++ (' ' :: ownIp)] ∧
    List.map (relayTransform agentId)
        [WANT_CONFIG_TOPIC, PING_TOPIC, IP_TOPIC ++ (' ' :: ownIp)] =
      [WANT_CONFIG_TOPIC ++ (' ' :: agentId), PING_TOPIC ++ (' ' :: agentId),
       IP_TOPIC ++ (' ' :: (agentId ++ (' ' :: ownIp)))] := by
  refine ⟨by simp [monitorConnect, h], ?_⟩
  have h1 : splitFirst WANT_CONFIG_TOPIC = none := by decide
  have h2 : splitFirst PING_TOPIC = none := by decide
  have h3 := splitFirst_append IP_TOPIC ownIp (by decide)
  simp [relayTransform, h1, h2, h3]

/-- C8 witness: the reconnect theorem applied at a concrete outgoing
    log name, address and identity. -/
theorem c8_witness :
    monitorConnect exOutName ("1.2.3.4".toList) =
      some [WANT_CONFIG_TOPIC, PING_TOPIC, IP_TOPIC ++ (' ' :: ("1.2.3.4".toList))] ∧
    List.map (relayTransform ("A1".toList))
        [WANT_CONFIG_TOPIC, PING_TOPIC, IP_TOPIC ++ (' ' :: ("1.2.3.4".toList))] =
      [WANT_CONFIG_TOPIC ++ (' ' :: ("A1".toList)),
       PING_TOPIC ++ (' ' :: ("A1".toList)),
       IP_TOPIC ++ (' ' :: (("A1".toList) ++ (' ' :: ("1.2.3.4".toList))))] :=
  c8_outgoing_reconnect_announcements exOutName ("1.2.3.4".toList) ("A1".toList)
    (by decide)

/-- The serialized configuration document is never empty. -/
theorem dumps_ne_nil (c : Config) : dumps c ≠ [] := by
  obtain ⟨mode, doc⟩ := c
  cases mode <;> simp [dumps]

/-- C9 counterexample: at a concrete old file content and a concrete
    new document, the truncate-then-write sequence the code performs
    lets a reader observe a content that is neither the old nor the
    new document (the empty file between truncate and write), while
    the write-then-rename mechanism the spec prescribes would not. -/
theorem c9_counterexample :
    readerSafe (dumps exConfigB) (persistOps (dumps exConfig)) (dumps exConfig) = false ∧
    readerSafe (dumps exConfigB) (writeThenRenameOps (dumps exConfig)) (dumps exConfig) = true := by
  decide

/-- C9 (amended): the persistence step overwrites the configuration
    file in place by truncate-then-write, not atomically: the
    observable file contents are the old document, then the empty
    file, then the new document, so whenever the old document is
    nonempty a reader can observe a state that is neither the old nor
    the new document. -/
theorem c9_persist_truncate_write (old : PyStr) (c : Config) (hold : old ≠ []) :
    observedStates old (persistOps (dumps c)) = [old, [], dumps c] ∧
    readerSafe old (persistOps (dumps c)) (dumps c) = false := by
  constructor
  · simp [observedStates, persistOps, applyOp]
  · have h1 : (([] : PyStr) == old) = false := by
      simp [beq_eq_false_iff_ne]
      exact hold
    have h2 : (([] : PyStr) == dumps c) = false := by
      simp [beq_eq_false_iff_ne]
      exact dumps_ne_nil c
    simp [readerSafe, observedStates, persistOps, applyOp, h1, h2]

/-- C9 witness: the truncate-then-write theorem applied at a concrete
    nonempty old content and a concrete new document. -/
theorem c9_witness :
    observedStates (dumps exConfigB) (persistOps (dumps exConfig)) =
      [dumps exConfigB, [], dumps exConfig] ∧
    readerSafe (dumps exConfigB) (persistOps (dumps exConfig)) (dumps exConfig) = false :=
  c9_persist_truncate_write (dumps exConfigB) exConfig (by decide)

/-- C10: the connect handling of the monitor is total: for every log
    name the branch guarded by the constant nonempty literal catches
    what the outgoing test does not, so the assert False arm (modeled
    as none) is unreachable, and a connect on a transport whose log
    name does not contain the outgoing token pushes exactly the
    WANT_CONFIG announcement and no PING or IP. -/
theorem c10_monitor_branch_total (logName ownIp : PyStr) :
    (monitorConnect logName ownIp).isSome = true ∧
    (pyIn outgoingTok logName = false →
      monitorConnect logName ownIp = some [WANT_CONFIG_TOPIC]) := by
  have ht : pyTruthy incommingTok = true := by decide
  cases h : pyIn outgoingTok logName <;> simp [monitorConnect, h, ht]

/-- C10 witness: the totality theorem applied at a concrete incoming
    log name, with the inner implication discharged. -/
theorem c10_witness :
    (monitorConnect exIncName []).isSome = true ∧
    monitorConnect exIncName [] = some [WANT_CONFIG_TOPIC] :=
  ⟨(c10_monitor_branch_total exIncName []).1,
   (c10_monitor_branch_total exIncName []).2 (by decide)⟩
